import Mathlib

/-!
# obscura: scattering-angle functions, mass updates and exclusion limits

The development has two layers.

* `DM_Particle` embeds `src/DM_Particle.cpp`.  A `double` is an element of a linearly
  ordered commutative ring `α`; the division of two doubles is an operation of `α`
  about which nothing is assumed, so that no statement can lean on the value of a
  quotient whose divisor is zero.  Virtual member functions are the fields of
  `DM_Particle.Virtual`; the routines of the external library libphysica
  (`Reduced_Mass`, `Integrate`), `sqrt` and the unit constant `mElectron` are the fields
  of `Numerics`.
* `Detector` embeds the class declared in `include/Direct_Detection.hpp`.  Its data
  members, constructors and inline bodies are taken from the header; the member
  functions that the header only declares, and `CDF_Maximum_Gap`, are modelled from the
  specification and say so.  Numbers are elements of a linearly ordered field there;
  logarithm and exponential are parameters of the definitions, and the theorems
  instantiate them with the real functions.

All definitions are executable; the examples evaluate them over `ℚ` and `ℝ`.
-/

namespace obscura

/-! ## Collaborators of `DM_Particle.cpp` -/

/-- Target isotope.  The scattering-angle code reads `mass` only; `data` stands for the
remaining members of the class, which is declared in another header. -/
structure Isotope (α : Type) (X : Type) where
  mass : α
  data : X

/-- Numerical collaborators used by `DM_Particle.cpp`: `libphysica::Reduced_Mass`,
`libphysica::Integrate`, `sqrt` from `<cmath>` and the constant `mElectron` of the
natural-units header. -/
structure Numerics (α : Type) where
  Reduced_Mass : α → α → α
  Integrate : (α → α) → α → α → α
  sqrt : α → α
  mElectron : α

/-! ## The base class `DM_Particle` -/

/-- Data members of `DM_Particle`, in the order of the constructor's initialiser list.
`derived` holds the data members a subclass adds. -/
structure DM_Particle (α : Type) (Ext : Type) where
  low_mass : Bool
  using_cross_section : Bool
  mass : α
  spin : α
  fractional_density : α
  DD_use_eta_function : Bool
  derived : Ext

namespace DM_Particle

variable {α Ext X : Type}

/-- Virtual member functions of `DM_Particle` that `DM_Particle.cpp` calls.  Each one
receives the object it is called on; a setter returns the object after the call and
may change any of its members. -/
structure Virtual (α : Type) (Ext : Type) (X : Type) where
  Sigma_Proton : DM_Particle α Ext → α
  Sigma_Neutron : DM_Particle α Ext → α
  Sigma_Electron : DM_Particle α Ext → α
  Set_Sigma_Proton : DM_Particle α Ext → α → DM_Particle α Ext
  Set_Sigma_Neutron : DM_Particle α Ext → α → DM_Particle α Ext
  Set_Sigma_Electron : DM_Particle α Ext → α → DM_Particle α Ext
  dSigma_dq2_Nucleus : DM_Particle α Ext → α → Isotope α X → α → α → α
  dSigma_dq2_Electron : DM_Particle α Ext → α → α → α → α
  Sigma_Total_Nucleus : DM_Particle α Ext → Isotope α X → α → α → α
  Sigma_Total_Electron : DM_Particle α Ext → α → α → α

/-- Constructor `DM_Particle(double m, double s)`. -/
def new (m s : α) [One α] (d : Ext) : DM_Particle α Ext :=
  { low_mass := false, using_cross_section := false, mass := m, spin := s,
    fractional_density := 1, DD_use_eta_function := false, derived := d }

/-- Member function `Set_Mass`: read the three cross sections, overwrite `mass`, then
write the three cross sections back in the order proton, neutron, electron. -/
def Set_Mass (V : Virtual α Ext X) (self : DM_Particle α Ext) (mDM : α) :
    DM_Particle α Ext :=
  let sigma_p := V.Sigma_Proton self
  let sigma_n := V.Sigma_Neutron self
  let sigma_e := V.Sigma_Electron self
  let self1 := { self with mass := mDM }
  let self2 := V.Set_Sigma_Proton self1 sigma_p
  let self3 := V.Set_Sigma_Neutron self2 sigma_n
  V.Set_Sigma_Electron self3 sigma_e

/-- Member function `Set_Spin`. -/
def Set_Spin (self : DM_Particle α Ext) (s : α) : DM_Particle α Ext :=
  { self with spin := s }

/-- Member function `Set_Low_Mass_Mode`. -/
def Set_Low_Mass_Mode (self : DM_Particle α Ext) (ldm : Bool) : DM_Particle α Ext :=
  { self with low_mass := ldm }

/-- Member function `Set_Fractional_Density`. -/
def Set_Fractional_Density (self : DM_Particle α Ext) (f : α) : DM_Particle α Ext :=
  { self with fractional_density := f }

section Scattering

variable [LinearOrderedCommRing α] [Div α]

/-- Member function `Sigma_Total_Nucleus_Base`: the differential cross section
integrated over `q2` from `0` to `4 * (Reduced_Mass(mass, target.mass) * vDM)^2`. -/
def Sigma_Total_Nucleus_Base (N : Numerics α) (V : Virtual α Ext X)
    (self : DM_Particle α Ext) (target : Isotope α X) (vDM param : α) : α :=
  let q2min : α := 0
  let q2max : α := 4 * (N.Reduced_Mass self.mass target.mass * vDM) ^ 2
  let dodq2 : α → α := fun q2 => V.dSigma_dq2_Nucleus self (N.sqrt q2) target vDM param
  N.Integrate dodq2 q2min q2max

/-- Member function `Sigma_Total_Electron_Base`. -/
def Sigma_Total_Electron_Base (N : Numerics α) (V : Virtual α Ext X)
    (self : DM_Particle α Ext) (vDM param : α) : α :=
  let q2min : α := 0
  let q2max : α := 4 * (N.Reduced_Mass self.mass N.mElectron * vDM) ^ 2
  let dodq2 : α → α := fun q2 => V.dSigma_dq2_Electron self (N.sqrt q2) vDM param
  N.Integrate dodq2 q2min q2max

/-- Member function `PDF_Scattering_Angle_Nucleus_Base`. -/
def PDF_Scattering_Angle_Nucleus_Base (N : Numerics α) (V : Virtual α Ext X)
    (self : DM_Particle α Ext) (cos_alpha : α) (target : Isotope α X) (vDM param : α) : α :=
  let q : α := N.Reduced_Mass target.mass self.mass * vDM * N.sqrt (2 * (1 - cos_alpha))
  let q2max : α :=
    4 * N.Reduced_Mass target.mass self.mass * N.Reduced_Mass target.mass self.mass * vDM * vDM
  let SigmaTot : α := V.Sigma_Total_Nucleus self target vDM param
  if SigmaTot ≠ 0 then
    q2max / 2 / SigmaTot * V.dSigma_dq2_Nucleus self q target vDM param
  else
    0

/-- Member function `PDF_Scattering_Angle_Electron_Base`. -/
def PDF_Scattering_Angle_Electron_Base (N : Numerics α) (V : Virtual α Ext X)
    (self : DM_Particle α Ext) (cos_alpha : α) (vDM param : α) : α :=
  let q : α := N.Reduced_Mass N.mElectron self.mass * vDM * N.sqrt (2 * (1 - cos_alpha))
  let q2max : α :=
    4 * N.Reduced_Mass N.mElectron self.mass * N.Reduced_Mass N.mElectron self.mass * vDM * vDM
  let SigmaTot : α := V.Sigma_Total_Electron self vDM param
  if SigmaTot ≠ 0 then
    q2max / 2 / SigmaTot * V.dSigma_dq2_Electron self q vDM param
  else
    0

/-- Member function `CDF_Scattering_Angle_Nucleus_Base`. -/
def CDF_Scattering_Angle_Nucleus_Base (N : Numerics α) (V : Virtual α Ext X)
    (self : DM_Particle α Ext) (cos_alpha : α) (target : Isotope α X) (vDM param : α) : α :=
  if cos_alpha ≤ -1 then
    0
  else if cos_alpha ≥ 1 then
    1
  else
    let integrand : α → α :=
      fun c => PDF_Scattering_Angle_Nucleus_Base N V self c target vDM param
    let cdf := N.Integrate integrand (-1) cos_alpha
    cdf

/-- Member function `CDF_Scattering_Angle_Electron_Base`. -/
def CDF_Scattering_Angle_Electron_Base (N : Numerics α) (V : Virtual α Ext X)
    (self : DM_Particle α Ext) (cos_alpha : α) (vDM param : α) : α :=
  if cos_alpha ≤ -1 then
    0
  else if cos_alpha ≥ 1 then
    1
  else
    let integrand : α → α :=
      fun c => PDF_Scattering_Angle_Electron_Base N V self c vDM param
    let cdf := N.Integrate integrand (-1) cos_alpha
    cdf

end Scattering

end DM_Particle

/-! ## The class `Detector` (header `Direct_Detection.hpp`) -/

/-- Data members of `Detector`, in the order in which the header declares them. -/
structure Detector (α : Type) where
  name : String
  targets : String
  exposure : α
  flat_efficiency : α
  energy_threshold : α
  energy_max : α
  statistical_analysis : String
  background_events : ℕ
  number_of_bins : ℕ
  bins_energy : List α
  binned_background : List ℕ
  background_energy_data_sorted : List α

/-- Reason for which the upper-bound solver gives up at one mass (specification, 7 (c)):
the search brackets no sign change, or it exceeds its iteration budget. -/
inductive Solver_Failure where
  | no_sign_change
  | iteration_budget
  deriving DecidableEq, Repr

/-- Functions that the statistics of `Detector` call and that live outside the class:
the virtual `dRdE` of the concrete detector, the interface of the particle-model handle
`P` (specification, 6), the numerical primitives, and the two ingredients that the
specification names without defining them: the Poisson upper limit for a nonzero
background and the bracketed root search of the maximum-gap mode. -/
structure Collaborators (α : Type) (P : Type) (V : Type) where
  dRdE : α → P → V → α
  Minimum_Energy : P → V → α
  Get_Interaction_Parameter : P → α
  Set_Interaction_Parameter : P → α → P
  Set_Mass : P → α → P
  Integrate : (α → α) → α → α → α
  log : α → α
  Poisson_Upper_Limit : ℕ → α → α
  Maximum_Gap_Search : Detector α → P → V → α → Except Solver_Failure (WithTop α)

namespace Detector

variable {α P V : Type}

/-- Constructor `Detector()`. -/
def new [Zero α] [One α] : Detector α :=
  { name := "base name", targets := "base targets", exposure := 0, flat_efficiency := 1,
    energy_threshold := 0, energy_max := 0, statistical_analysis := "Poisson",
    background_events := 0, number_of_bins := 0, bins_energy := [],
    binned_background := [], background_energy_data_sorted := [] }

/-- Constructor `Detector(label, expo, target_type)`. -/
def new3 [Zero α] [One α] (label : String) (expo : α) (target_type : String) : Detector α :=
  { name := label, targets := target_type, exposure := expo, flat_efficiency := 1,
    energy_threshold := 0, energy_max := 0, statistical_analysis := "Poisson",
    background_events := 0, number_of_bins := 0, bins_energy := [],
    binned_background := [], background_energy_data_sorted := [] }

/-- Inline body of the virtual `dRdE` in the base class: the rate is `0.0`. -/
def dRdE_base [Zero α] (_E : α) (_DM : P) (_distr : V) : α := 0

/-- Default value of the argument `certainty` of `Upper_Bound` and `Limit_Curve`. -/
def default_certainty [DivisionRing α] : α := 95 / 100

section Statistics

variable [LinearOrderedField α]

/-- Modelled from the spec: `Detector::Total_Number_of_Signals`, which the header only
declares.  Specification 4.1: the rate integrated over the energy window, times exposure
and flat efficiency; exactly `0` when the threshold is not below the maximal energy or
the smallest kinematically allowed energy of the model lies above the window. -/
def Total_Number_of_Signals (K : Collaborators α P V) (det : Detector α) (DM : P)
    (distr : V) : α :=
  if det.energy_threshold ≥ det.energy_max ∨ K.Minimum_Energy DM distr > det.energy_max then
    0
  else
    det.exposure * det.flat_efficiency *
      K.Integrate (fun E => K.dRdE E DM distr) det.energy_threshold det.energy_max

/-- Modelled from the spec: `Detector::Binned_Number_of_Signals`, which the header only
declares.  Specification 4.1: one expected count for each pair of consecutive bin edges,
in the order of the bins, with the same edge case as the total count. -/
def Binned_Number_of_Signals (K : Collaborators α P V) (det : Detector α) (DM : P)
    (distr : V) : List α :=
  if det.energy_threshold ≥ det.energy_max ∨ K.Minimum_Energy DM distr > det.energy_max then
    List.replicate det.number_of_bins 0
  else
    List.zipWith
      (fun lo hi =>
        det.exposure * det.flat_efficiency * K.Integrate (fun E => K.dRdE E DM distr) lo hi)
      det.bins_energy det.bins_energy.tail

/-- Modelled from the spec: the largest expected count allowed at confidence level
`certainty` for a background of `B` events (specification 4.2): `-ln(1 - certainty)`
without background, the collaborator `Poisson_Upper_Limit` otherwise. -/
def Required_Signal (K : Collaborators α P V) (B : ℕ) (certainty : α) : α :=
  if B = 0 then -K.log (1 - certainty) else K.Poisson_Upper_Limit B certainty

/-- Modelled from the spec: the rescaling step of specification 4.3 applied to one bin,
`strength_current * (S_required / S0)`, with the bound `+∞` for a bin whose expected
signal `S0` is `0`. -/
def Rescaled_Strength (strength S_required S0 : α) : WithTop α :=
  if S0 = 0 then ⊤ else ((strength * (S_required / S0) : α) : WithTop α)

/-- Modelled from the spec: `Detector::Upper_Bound`, which the header only declares.
Specification 4.3: the expected signal `S0` at the current strength is evaluated first
and a vanishing `S0` gives the bound `+∞`.  Otherwise, in Poisson mode the current
strength is rescaled by `S_required / S0`; in binned mode every bin gives such a bound
and the smallest one is kept; the maximum-gap mode is the root search of the
collaborator, which may fail.  The header shows the mode tag `"Poisson"` only;
`"Binned Poisson"` names the binned mode here and every other tag selects the
maximum-gap search. -/
def Upper_Bound (K : Collaborators α P V) (det : Detector α) (DM : P) (distr : V)
    (certainty : α) : Except Solver_Failure (WithTop α) :=
  let S0 := Total_Number_of_Signals K det DM distr
  if S0 = 0 then
    .ok ⊤
  else if det.statistical_analysis = "Poisson" then
    let S_required := Required_Signal K det.background_events certainty
    .ok ((K.Get_Interaction_Parameter DM * (S_required / S0) : α) : WithTop α)
  else if det.statistical_analysis = "Binned Poisson" then
    let per_bin : List (WithTop α) :=
      List.zipWith
        (fun Si B =>
          Rescaled_Strength (K.Get_Interaction_Parameter DM) (Required_Signal K B certainty) Si)
        (Binned_Number_of_Signals K det DM distr) det.binned_background
    .ok (per_bin.foldl min ⊤)
  else
    K.Maximum_Gap_Search det DM distr certainty

/-- Modelled from the spec: the bound entered in the exclusion curve at one mass
(specification 4.4 and 7): the solver's bound, and `+∞` ("no bound") when the solver
reports a failure. -/
def Point_Bound (K : Collaborators α P V) (det : Detector α) (DM : P) (distr : V)
    (certainty : α) : WithTop α :=
  match Upper_Bound K det DM distr certainty with
  | .ok bound => bound
  | .error _ => ⊤

/-- Modelled from the spec: the rows collected while the masses of a list are visited
in the order of the list.  Specification 4.4: at every point the mass of the particle
model is set, the solver is called, and the row `{mass, bound}` is appended; a point
whose solver fails gets the bound `+∞` and the points after it are still visited. -/
def Collect_Rows (K : Collaborators α P V) (det : Detector α) :
    P → V → List α → α → List (List (WithTop α))
  | _, _, [], _ => []
  | DM, distr, m :: rest, certainty =>
    let DM1 := K.Set_Mass DM m
    [(m : WithTop α), Point_Bound K det DM1 distr certainty] ::
      Collect_Rows K det DM1 distr rest certainty

/-- Modelled from the spec: the scan over a mass grid, the `Upper_Limit_Curve` that
`tests.cpp` calls with a vector of masses and that the header does not declare.
Specification 4.4: the pairs are collected in ascending mass order, so the grid points
are visited from the smallest mass to the largest; a grid that is already ascending is
visited as it stands. -/
def Upper_Limit_Curve (K : Collaborators α P V) (det : Detector α) (DM : P) (distr : V)
    (masses : List α) (certainty : α) : List (List (WithTop α)) :=
  Collect_Rows K det DM distr (masses.insertionSort (· ≤ ·)) certainty

/-- Modelled from the spec: `Detector::Limit_Curve`, which the header only declares: the
scan over the grid of `points` masses between `mMin` and `mMax` that the external
`Log_Space` produces. -/
def Limit_Curve (K : Collaborators α P V) (Log_Space : α → α → ℕ → List α)
    (det : Detector α) (DM : P) (distr : V) (mMin mMax : α) (points : ℕ) (certainty : α) :
    List (List (WithTop α)) :=
  Upper_Limit_Curve K det DM distr (Log_Space mMin mMax points) certainty

/-- The particle model as `Collect_Rows` leaves it at each point of a list: the handle
after the mass of the first point was set, after the mass of the second point was set
on that one, and so on. -/
def Scan_States (K : Collaborators α P V) : P → List α → List P
  | _, [] => []
  | DM, m :: rest => K.Set_Mass DM m :: Scan_States K (K.Set_Mass DM m) rest

end Statistics

end Detector

/-! ## The maximum-gap distribution -/

section MaximumGap

variable {α : Type} [LinearOrderedField α]

end MaximumGap

/-! ## Properties assumed of a particle model -/

namespace DM_Particle

variable {α Ext X : Type}

/-- The cross-section accessors of a particle model round-trip: a cross section read
right after it was set is the value set, and setting one of the three cross sections
leaves the readings of the other two as they were.  Both hold on every object, so at
every mass. -/
structure Round_Trip (V : Virtual α Ext X) : Prop where
  proton : ∀ d s, V.Sigma_Proton (V.Set_Sigma_Proton d s) = s
  neutron : ∀ d s, V.Sigma_Neutron (V.Set_Sigma_Neutron d s) = s
  electron : ∀ d s, V.Sigma_Electron (V.Set_Sigma_Electron d s) = s
  proton_keeps : ∀ d s, V.Sigma_Neutron (V.Set_Sigma_Proton d s) = V.Sigma_Neutron d ∧
    V.Sigma_Electron (V.Set_Sigma_Proton d s) = V.Sigma_Electron d
  neutron_keeps : ∀ d s, V.Sigma_Proton (V.Set_Sigma_Neutron d s) = V.Sigma_Proton d ∧
    V.Sigma_Electron (V.Set_Sigma_Neutron d s) = V.Sigma_Electron d
  electron_keeps : ∀ d s, V.Sigma_Proton (V.Set_Sigma_Electron d s) = V.Sigma_Proton d ∧
    V.Sigma_Neutron (V.Set_Sigma_Electron d s) = V.Sigma_Neutron d

/-- A setter leaves the members `mass`, `spin`, `low_mass` and `fractional_density` of
the base class as they were. -/
def Keeps_Base_Members (set : DM_Particle α Ext → α → DM_Particle α Ext) : Prop :=
  ∀ d s, (set d s).mass = d.mass ∧ (set d s).spin = d.spin ∧
    (set d s).low_mass = d.low_mass ∧ (set d s).fractional_density = d.fractional_density

/-- All three cross-section setters of the model leave the base members alone. -/
def Setters_Keep_Base_Members (V : Virtual α Ext X) : Prop :=
  Keeps_Base_Members V.Set_Sigma_Proton ∧ Keeps_Base_Members V.Set_Sigma_Neutron ∧
    Keeps_Base_Members V.Set_Sigma_Electron

end DM_Particle

/-! ## Concrete models over the rationals -/

namespace Example

open DM_Particle

/-- Numerical collaborators over `ℚ`: the reduced mass `m1 m2 / (m1 + m2)`, the
left-endpoint rule for the integral and the rational square root. -/
def rational_numerics : Numerics ℚ :=
  { Reduced_Mass := fun m1 m2 => m1 * m2 / (m1 + m2),
    Integrate := fun f a b => f a * (b - a),
    sqrt := Rat.sqrt,
    mElectron := 1 / 2000 }

/-- A particle model that stores its three cross sections in the subclass data
`(proton, neutron, electron)`.  Its differential cross sections are constant and its
total cross sections are the stored proton and electron cross sections. -/
def stored_sigma : Virtual ℚ (ℚ × ℚ × ℚ) Unit :=
  { Sigma_Proton := fun d => d.derived.1,
    Sigma_Neutron := fun d => d.derived.2.1,
    Sigma_Electron := fun d => d.derived.2.2,
    Set_Sigma_Proton := fun d s => { d with derived := (s, d.derived.2.1, d.derived.2.2) },
    Set_Sigma_Neutron := fun d s => { d with derived := (d.derived.1, s, d.derived.2.2) },
    Set_Sigma_Electron := fun d s => { d with derived := (d.derived.1, d.derived.2.1, s) },
    dSigma_dq2_Nucleus := fun _ _ _ _ _ => 1,
    dSigma_dq2_Electron := fun _ _ _ _ => 1,
    Sigma_Total_Nucleus := fun d _ _ _ => d.derived.1,
    Sigma_Total_Electron := fun d _ _ => d.derived.2.2 }

/-- The model `stored_sigma` with one change: `Set_Sigma_Proton` also resets the spin
to `0`. -/
def spin_resetting : Virtual ℚ (ℚ × ℚ × ℚ) Unit :=
  { stored_sigma with
    Set_Sigma_Proton := fun d s =>
      { d with spin := 0, derived := (s, d.derived.2.1, d.derived.2.2) } }

/-- A particle of mass `10` and spin `1/2` with cross sections `1`, `2`, `3`. -/
def particle : DM_Particle ℚ (ℚ × ℚ × ℚ) := DM_Particle.new 10 (1 / 2) (1, 2, 3)

/-- A particle of mass `10` and spin `1/2` whose cross sections are all `0`. -/
def dark_particle : DM_Particle ℚ (ℚ × ℚ × ℚ) := DM_Particle.new 10 (1 / 2) (0, 0, 0)

/-- A target of mass `40`. -/
def target : Isotope ℚ Unit := { mass := 40, data := () }

/-- A detector with exposure `1`, flat efficiency `1`, the energy window `[0, 10]` and
no background, in Poisson mode. -/
def window_detector {α : Type} [LinearOrderedField α] : Detector α :=
  { (Detector.new : Detector α) with exposure := 1, energy_max := 10 }

/-- The detector `window_detector` switched to the maximum-gap mode. -/
def gap_detector {α : Type} [LinearOrderedField α] : Detector α :=
  { (window_detector : Detector α) with statistical_analysis := "Maximum Gap" }

/-- A physics model with a flat spectrum.  The particle handle is the pair
`(mass, strength)`; the rate is one event per unit energy and unit strength; the
smallest kinematically allowed energy is `5 / mass`; the integral is the left-endpoint
rule, which is exact for a flat spectrum; the maximum-gap search always reports that it
found no sign change; the Poisson limit for a nonzero background is a placeholder that
a detector without background never consults.  The logarithm is a parameter. -/
def flat_rate {α : Type} [LinearOrderedField α] (log : α → α) :
    Collaborators α (α × α) Unit :=
  { dRdE := fun _ DM _ => DM.2,
    Minimum_Energy := fun DM _ => 5 / DM.1,
    Get_Interaction_Parameter := fun DM => DM.2,
    Set_Interaction_Parameter := fun DM s => (DM.1, s),
    Set_Mass := fun DM m => (m, DM.2),
    Integrate := fun f a b => f a * (b - a),
    log := log,
    Poisson_Upper_Limit := fun _ _ => 0,
    Maximum_Gap_Search := fun _ _ _ _ => .error .no_sign_change }

/-- A detector whose threshold `7` lies above its maximal energy `3`, with exposure `2`
and two energy bins. -/
def closed_detector {α : Type} [LinearOrderedField α] : Detector α :=
  { (Detector.new : Detector α) with
    exposure := 2, energy_threshold := 7, energy_max := 3, number_of_bins := 2,
    bins_energy := [3, 5, 7] }

end Example

/-! ## Theorems about `DM_Particle.cpp` -/

namespace DM_Particle

variable {α Ext X : Type}

/-- C7 (as amended).  For a particle model whose cross-section accessors round-trip,
the three cross sections read after `Set_Mass(m)` are the ones read before it.  If in
addition the three setters leave the base members alone, the mass after the call is `m`
and spin, low-mass flag and fractional density are unchanged. -/
theorem Set_Mass_keeps_cross_sections (V : Virtual α Ext X) (self : DM_Particle α Ext)
    (mDM : α) (hrt : Round_Trip V) :
    (V.Sigma_Proton (Set_Mass V self mDM) = V.Sigma_Proton self ∧
      V.Sigma_Neutron (Set_Mass V self mDM) = V.Sigma_Neutron self ∧
      V.Sigma_Electron (Set_Mass V self mDM) = V.Sigma_Electron self) ∧
    (Setters_Keep_Base_Members V →
      (Set_Mass V self mDM).mass = mDM ∧
      (Set_Mass V self mDM).spin = self.spin ∧
      (Set_Mass V self mDM).low_mass = self.low_mass ∧
      (Set_Mass V self mDM).fractional_density = self.fractional_density) := by
  refine ⟨⟨?_, ?_, ?_⟩, ?_⟩
  · simp only [Set_Mass]
    rw [(hrt.electron_keeps _ _).1, (hrt.neutron_keeps _ _).1, hrt.proton]
  · simp only [Set_Mass]
    rw [(hrt.electron_keeps _ _).2, hrt.neutron]
  · simp only [Set_Mass]
    rw [hrt.electron]
  · rintro ⟨hp, hn, he⟩
    simp only [Set_Mass]
    obtain ⟨e1, e2, e3, e4⟩ := he (V.Set_Sigma_Neutron (V.Set_Sigma_Proton
      { self with mass := mDM } (V.Sigma_Proton self)) (V.Sigma_Neutron self))
      (V.Sigma_Electron self)
    obtain ⟨n1, n2, n3, n4⟩ := hn (V.Set_Sigma_Proton
      { self with mass := mDM } (V.Sigma_Proton self)) (V.Sigma_Neutron self)
    obtain ⟨p1, p2, p3, p4⟩ := hp { self with mass := mDM } (V.Sigma_Proton self)
    exact ⟨by rw [e1, n1, p1], by rw [e2, n2, p2], by rw [e3, n3, p3], by rw [e4, n4, p4]⟩

/-- Witness for C7: the model `stored_sigma` round-trips and its setters leave the base
members alone; moving the example particle to mass `5` keeps its cross sections
`1`, `2`, `3`, its spin, flag and density, and sets the mass. -/
theorem Set_Mass_keeps_cross_sections_witness :
    Round_Trip Example.stored_sigma ∧ Setters_Keep_Base_Members Example.stored_sigma ∧
    (Example.stored_sigma.Sigma_Proton (Set_Mass Example.stored_sigma Example.particle 5) = 1 ∧
      Example.stored_sigma.Sigma_Neutron (Set_Mass Example.stored_sigma Example.particle 5) = 2 ∧
      Example.stored_sigma.Sigma_Electron (Set_Mass Example.stored_sigma Example.particle 5)
        = 3) ∧
    (Set_Mass Example.stored_sigma Example.particle 5).mass = 5 ∧
    (Set_Mass Example.stored_sigma Example.particle 5).spin = 1 / 2 := by
  have hrt : Round_Trip Example.stored_sigma :=
    ⟨fun _ _ => rfl, fun _ _ => rfl, fun _ _ => rfl, fun _ _ => ⟨rfl, rfl⟩,
      fun _ _ => ⟨rfl, rfl⟩, fun _ _ => ⟨rfl, rfl⟩⟩
  have hkeep : Setters_Keep_Base_Members Example.stored_sigma :=
    ⟨fun _ _ => ⟨rfl, rfl, rfl, rfl⟩, fun _ _ => ⟨rfl, rfl, rfl, rfl⟩,
      fun _ _ => ⟨rfl, rfl, rfl, rfl⟩⟩
  have h := Set_Mass_keeps_cross_sections Example.stored_sigma Example.particle 5 hrt
  exact ⟨hrt, hkeep, h.1, (h.2 hkeep).1, (h.2 hkeep).2.1⟩

/-- Counterexample to C7 as stated.  The model `spin_resetting` round-trips in the
sense of the claim, yet `Set_Mass(5)` on the example particle changes the spin from
`1/2` to `0`: the call to the virtual `Set_Sigma_Proton` inside `Set_Mass` does it. -/
theorem Set_Mass_may_change_spin :
    Round_Trip Example.spin_resetting ∧
    Example.particle.spin = 1 / 2 ∧
    (Set_Mass Example.spin_resetting Example.particle 5).spin = 0 ∧
    (Set_Mass Example.spin_resetting Example.particle 5).spin ≠ Example.particle.spin := by
  refine ⟨⟨fun _ _ => rfl, fun _ _ => rfl, fun _ _ => rfl, fun _ _ => ⟨rfl, rfl⟩,
      fun _ _ => ⟨rfl, rfl⟩, fun _ _ => ⟨rfl, rfl⟩⟩, rfl, rfl, ?_⟩
  show (0 : ℚ) ≠ 1 / 2
  norm_num

section Scattering

variable [LinearOrderedCommRing α] [Div α]

/-- C8.  `CDF_Scattering_Angle_Nucleus_Base` and `CDF_Scattering_Angle_Electron_Base`
return `0` for `cos_alpha ≤ -1` and `1` for `cos_alpha ≥ 1`, whatever the integrator,
the cross sections, the target, the speed and the parameter are (so the result there
does not depend on any of them); for `-1 < cos_alpha < 1` the result is the integral
of the scattering-angle PDF from `-1` to `cos_alpha`. -/
theorem CDF_Scattering_Angle_Base_cases (N : Numerics α) (V : Virtual α Ext X)
    (self : DM_Particle α Ext) (cos_alpha : α) (target : Isotope α X) (vDM param : α) :
    (cos_alpha ≤ -1 →
      CDF_Scattering_Angle_Nucleus_Base N V self cos_alpha target vDM param = 0 ∧
      CDF_Scattering_Angle_Electron_Base N V self cos_alpha vDM param = 0) ∧
    (1 ≤ cos_alpha →
      CDF_Scattering_Angle_Nucleus_Base N V self cos_alpha target vDM param = 1 ∧
      CDF_Scattering_Angle_Electron_Base N V self cos_alpha vDM param = 1) ∧
    (cos_alpha ≤ -1 ∨ 1 ≤ cos_alpha →
      ∀ (N2 : Numerics α) (V2 : Virtual α Ext X) (target2 : Isotope α X) (vDM2 param2 : α),
        CDF_Scattering_Angle_Nucleus_Base N2 V2 self cos_alpha target2 vDM2 param2 =
          CDF_Scattering_Angle_Nucleus_Base N V self cos_alpha target vDM param ∧
        CDF_Scattering_Angle_Electron_Base N2 V2 self cos_alpha vDM2 param2 =
          CDF_Scattering_Angle_Electron_Base N V self cos_alpha vDM param) ∧
    (-1 < cos_alpha → cos_alpha < 1 →
      CDF_Scattering_Angle_Nucleus_Base N V self cos_alpha target vDM param =
        N.Integrate (fun c => PDF_Scattering_Angle_Nucleus_Base N V self c target vDM param)
          (-1) cos_alpha ∧
      CDF_Scattering_Angle_Electron_Base N V self cos_alpha vDM param =
        N.Integrate (fun c => PDF_Scattering_Angle_Electron_Base N V self c vDM param)
          (-1) cos_alpha) := by
  have hlow : ∀ (N2 : Numerics α) (V2 : Virtual α Ext X) (t2 : Isotope α X) (v2 p2 : α),
      cos_alpha ≤ -1 →
      CDF_Scattering_Angle_Nucleus_Base N2 V2 self cos_alpha t2 v2 p2 = 0 ∧
      CDF_Scattering_Angle_Electron_Base N2 V2 self cos_alpha v2 p2 = 0 := by
    intro N2 V2 t2 v2 p2 h
    simp [CDF_Scattering_Angle_Nucleus_Base, CDF_Scattering_Angle_Electron_Base, h]
  have hhigh : ∀ (N2 : Numerics α) (V2 : Virtual α Ext X) (t2 : Isotope α X) (v2 p2 : α),
      1 ≤ cos_alpha →
      CDF_Scattering_Angle_Nucleus_Base N2 V2 self cos_alpha t2 v2 p2 = 1 ∧
      CDF_Scattering_Angle_Electron_Base N2 V2 self cos_alpha v2 p2 = 1 := by
    intro N2 V2 t2 v2 p2 h
    have hn : ¬ cos_alpha ≤ -1 := by
      intro h2
      have : (1 : α) ≤ -1 := le_trans h h2
      linarith
    simp [CDF_Scattering_Angle_Nucleus_Base, CDF_Scattering_Angle_Electron_Base, h, hn]
  refine ⟨hlow N V target vDM param, hhigh N V target vDM param, ?_, ?_⟩
  · rintro (h | h) N2 V2 t2 v2 p2
    · rw [(hlow N2 V2 t2 v2 p2 h).1, (hlow N2 V2 t2 v2 p2 h).2,
        (hlow N V target vDM param h).1, (hlow N V target vDM param h).2]
      exact ⟨rfl, rfl⟩
    · rw [(hhigh N2 V2 t2 v2 p2 h).1, (hhigh N2 V2 t2 v2 p2 h).2,
        (hhigh N V target vDM param h).1, (hhigh N V target vDM param h).2]
      exact ⟨rfl, rfl⟩
  · intro h1 h2
    have hn1 : ¬ cos_alpha ≤ -1 := not_le.mpr h1
    have hn2 : ¬ cos_alpha ≥ 1 := not_le.mpr h2
    simp [CDF_Scattering_Angle_Nucleus_Base, CDF_Scattering_Angle_Electron_Base, hn1, hn2]

/-- C9.  `PDF_Scattering_Angle_Nucleus_Base` and `PDF_Scattering_Angle_Electron_Base`
return `0` when the total cross section is `0`, whatever the division of two numbers
does, and otherwise `q2max / 2 / SigmaTot * dSigma_dq2(q)` with
`q2max = 4 * mu^2 * vDM^2`, `q = mu * vDM * sqrt(2 * (1 - cos_alpha))` and `mu` the
reduced mass of target and particle. -/
theorem PDF_Scattering_Angle_Base_guard (N : Numerics α) (V : Virtual α Ext X)
    (self : DM_Particle α Ext) (cos_alpha : α) (target : Isotope α X) (vDM param : α) :
    (V.Sigma_Total_Nucleus self target vDM param = 0 →
      PDF_Scattering_Angle_Nucleus_Base N V self cos_alpha target vDM param = 0) ∧
    (V.Sigma_Total_Nucleus self target vDM param ≠ 0 →
      PDF_Scattering_Angle_Nucleus_Base N V self cos_alpha target vDM param =
        4 * N.Reduced_Mass target.mass self.mass ^ 2 * vDM ^ 2 / 2 /
          V.Sigma_Total_Nucleus self target vDM param *
          V.dSigma_dq2_Nucleus self
            (N.Reduced_Mass target.mass self.mass * vDM * N.sqrt (2 * (1 - cos_alpha)))
            target vDM param) ∧
    (V.Sigma_Total_Electron self vDM param = 0 →
      PDF_Scattering_Angle_Electron_Base N V self cos_alpha vDM param = 0) ∧
    (V.Sigma_Total_Electron self vDM param ≠ 0 →
      PDF_Scattering_Angle_Electron_Base N V self cos_alpha vDM param =
        4 * N.Reduced_Mass N.mElectron self.mass ^ 2 * vDM ^ 2 / 2 /
          V.Sigma_Total_Electron self vDM param *
          V.dSigma_dq2_Electron self
            (N.Reduced_Mass N.mElectron self.mass * vDM * N.sqrt (2 * (1 - cos_alpha)))
            vDM param) := by
  refine ⟨?_, ?_, ?_, ?_⟩
  · intro h
    simp [PDF_Scattering_Angle_Nucleus_Base, h]
  · intro h
    have hq : 4 * N.Reduced_Mass target.mass self.mass * N.Reduced_Mass target.mass self.mass
        * vDM * vDM = 4 * N.Reduced_Mass target.mass self.mass ^ 2 * vDM ^ 2 := by ring
    simp only [PDF_Scattering_Angle_Nucleus_Base, if_pos h, hq]
  · intro h
    simp [PDF_Scattering_Angle_Electron_Base, h]
  · intro h
    have hq : 4 * N.Reduced_Mass N.mElectron self.mass * N.Reduced_Mass N.mElectron self.mass
        * vDM * vDM = 4 * N.Reduced_Mass N.mElectron self.mass ^ 2 * vDM ^ 2 := by ring
    simp only [PDF_Scattering_Angle_Electron_Base, if_pos h, hq]

end Scattering

/-- Witness for C8: the three cases at `cos_alpha = -2`, `3` and `0` for the example
particle and target over `ℚ`. -/
theorem CDF_Scattering_Angle_Base_cases_witness :
    ((-2 : ℚ) ≤ -1 ∧
      CDF_Scattering_Angle_Nucleus_Base Example.rational_numerics Example.stored_sigma
        Example.particle (-2) Example.target (1 / 1000) 0 = 0 ∧
      CDF_Scattering_Angle_Electron_Base Example.rational_numerics Example.stored_sigma
        Example.particle (-2) (1 / 1000) 0 = 0) ∧
    ((1 : ℚ) ≤ 3 ∧
      CDF_Scattering_Angle_Nucleus_Base Example.rational_numerics Example.stored_sigma
        Example.particle 3 Example.target (1 / 1000) 0 = 1 ∧
      CDF_Scattering_Angle_Electron_Base Example.rational_numerics Example.stored_sigma
        Example.particle 3 (1 / 1000) 0 = 1) ∧
    ((-1 : ℚ) < 0 ∧ (0 : ℚ) < 1 ∧
      CDF_Scattering_Angle_Nucleus_Base Example.rational_numerics Example.stored_sigma
        Example.particle 0 Example.target (1 / 1000) 0 =
        Example.rational_numerics.Integrate
          (fun c => PDF_Scattering_Angle_Nucleus_Base Example.rational_numerics
            Example.stored_sigma Example.particle c Example.target (1 / 1000) 0) (-1) 0) :=
  ⟨⟨by norm_num,
      (CDF_Scattering_Angle_Base_cases Example.rational_numerics Example.stored_sigma
        Example.particle (-2) Example.target (1 / 1000) 0).1 (by norm_num)⟩,
    ⟨by norm_num,
      ((CDF_Scattering_Angle_Base_cases Example.rational_numerics Example.stored_sigma
        Example.particle 3 Example.target (1 / 1000) 0).2.1 (by norm_num))⟩,
    ⟨by norm_num, by norm_num,
      ((CDF_Scattering_Angle_Base_cases Example.rational_numerics Example.stored_sigma
        Example.particle 0 Example.target (1 / 1000) 0).2.2.2 (by norm_num)
          (by norm_num)).1⟩⟩

/-- Witness for C9: the particle without cross sections has total cross section `0`
and its PDF is `0`; the example particle has total nuclear cross section `1` and its
PDF is the quotient of the claim, which evaluates to `128 / 1000000` (reduced mass `8`,
speed `1 / 1000`). -/
theorem PDF_Scattering_Angle_Base_guard_witness :
    (Example.stored_sigma.Sigma_Total_Nucleus Example.dark_particle Example.target
        (1 / 1000) 0 = 0 ∧
      PDF_Scattering_Angle_Nucleus_Base Example.rational_numerics Example.stored_sigma
        Example.dark_particle (1 / 2) Example.target (1 / 1000) 0 = 0) ∧
    (Example.stored_sigma.Sigma_Total_Nucleus Example.particle Example.target
        (1 / 1000) 0 ≠ 0 ∧
      PDF_Scattering_Angle_Nucleus_Base Example.rational_numerics Example.stored_sigma
        Example.particle (1 / 2) Example.target (1 / 1000) 0 =
        4 * Example.rational_numerics.Reduced_Mass Example.target.mass Example.particle.mass ^ 2
          * (1 / 1000) ^ 2 / 2 /
          Example.stored_sigma.Sigma_Total_Nucleus Example.particle Example.target (1 / 1000) 0 *
          Example.stored_sigma.dSigma_dq2_Nucleus Example.particle
            (Example.rational_numerics.Reduced_Mass Example.target.mass Example.particle.mass *
              (1 / 1000) * Example.rational_numerics.sqrt (2 * (1 - 1 / 2)))
            Example.target (1 / 1000) 0) ∧
    (Example.stored_sigma.Sigma_Total_Electron Example.dark_particle (1 / 1000) 0 = 0 ∧
      PDF_Scattering_Angle_Electron_Base Example.rational_numerics Example.stored_sigma
        Example.dark_particle (1 / 2) (1 / 1000) 0 = 0) ∧
    (Example.stored_sigma.Sigma_Total_Electron Example.particle (1 / 1000) 0 ≠ 0 ∧
      PDF_Scattering_Angle_Nucleus_Base Example.rational_numerics Example.stored_sigma
        Example.particle (1 / 2) Example.target (1 / 1000) 0 = 128 / 1000000) := by
  have h0 : Example.stored_sigma.Sigma_Total_Nucleus Example.dark_particle Example.target
      (1 / 1000) 0 = 0 := rfl
  have h1 : Example.stored_sigma.Sigma_Total_Nucleus Example.particle Example.target
      (1 / 1000) 0 ≠ 0 := by
    show (1 : ℚ) ≠ 0
    norm_num
  have e0 : Example.stored_sigma.Sigma_Total_Electron Example.dark_particle (1 / 1000) 0 = 0 :=
    rfl
  have e1 : Example.stored_sigma.Sigma_Total_Electron Example.particle (1 / 1000) 0 ≠ 0 := by
    show (3 : ℚ) ≠ 0
    norm_num
  refine ⟨⟨h0, (PDF_Scattering_Angle_Base_guard Example.rational_numerics Example.stored_sigma
      Example.dark_particle (1 / 2) Example.target (1 / 1000) 0).1 h0⟩,
    ⟨h1, (PDF_Scattering_Angle_Base_guard Example.rational_numerics Example.stored_sigma
      Example.particle (1 / 2) Example.target (1 / 1000) 0).2.1 h1⟩,
    ⟨e0, (PDF_Scattering_Angle_Base_guard Example.rational_numerics Example.stored_sigma
      Example.dark_particle (1 / 2) Example.target (1 / 1000) 0).2.2.1 e0⟩,
    e1, ?_⟩
  rw [(PDF_Scattering_Angle_Base_guard Example.rational_numerics Example.stored_sigma
      Example.particle (1 / 2) Example.target (1 / 1000) 0).2.1 h1]
  simp only [Example.rational_numerics, Example.stored_sigma, Example.particle,
    Example.target, DM_Particle.new]
  norm_num

end DM_Particle

/-! ## Theorems about the statistics of `Detector` -/

namespace Detector

variable {α P V : Type} [LinearOrderedField α]

/-- C5.  When the energy threshold is not below the maximal energy, the total number of
signals is `0` and every entry of the binned number of signals is `0`, for every
particle model, velocity distribution and rate `dRdE`.  Both constructors of the class
produce such a detector (window `[0, 0]`), so the same holds for every freshly
constructed one. -/
theorem Number_of_Signals_zero_of_empty_window (K : Collaborators α P V) (det : Detector α)
    (DM : P) (distr : V) (label : String) (expo : α) (target_type : String) :
    (det.energy_threshold ≥ det.energy_max →
      Total_Number_of_Signals K det DM distr = 0 ∧
      ∀ n ∈ Binned_Number_of_Signals K det DM distr, n = 0) ∧
    ((new : Detector α).energy_threshold ≥ (new : Detector α).energy_max ∧
      Total_Number_of_Signals K new DM distr = 0 ∧
      ∀ n ∈ Binned_Number_of_Signals K new DM distr, n = 0) ∧
    ((new3 label expo target_type).energy_threshold ≥ (new3 label expo target_type).energy_max ∧
      Total_Number_of_Signals K (new3 label expo target_type) DM distr = 0 ∧
      ∀ n ∈ Binned_Number_of_Signals K (new3 label expo target_type) DM distr, n = 0) := by
  have key : ∀ d : Detector α, d.energy_threshold ≥ d.energy_max →
      Total_Number_of_Signals K d DM distr = 0 ∧
      ∀ n ∈ Binned_Number_of_Signals K d DM distr, n = 0 := by
    intro d h
    constructor
    · simp [Total_Number_of_Signals, h]
    · intro n hn
      have hb : Binned_Number_of_Signals K d DM distr = List.replicate d.number_of_bins 0 := by
        simp [Binned_Number_of_Signals, h]
      rw [hb] at hn
      exact (List.mem_replicate.mp hn).2
  have hnew : (new : Detector α).energy_threshold ≥ (new : Detector α).energy_max :=
    le_refl (0 : α)
  have hnew3 : (new3 label expo target_type).energy_threshold ≥
      (new3 label expo target_type).energy_max := le_refl (0 : α)
  exact ⟨key det, ⟨hnew, key _ hnew⟩, ⟨hnew3, key _ hnew3⟩⟩

/-- Witness for C5: the detector with the window `[7, 3]`, exposure `2` and two bins,
observed with the flat-rate model over `ℝ`, counts `0` signals in total and in each
bin. -/
theorem Number_of_Signals_zero_of_empty_window_witness :
    (Example.closed_detector : Detector ℝ).energy_threshold ≥
      (Example.closed_detector : Detector ℝ).energy_max ∧
    Total_Number_of_Signals (Example.flat_rate Real.log) Example.closed_detector
      ((1 : ℝ), (1 : ℝ)) () = 0 ∧
    ∀ n ∈ Binned_Number_of_Signals (Example.flat_rate Real.log) Example.closed_detector
      ((1 : ℝ), (1 : ℝ)) (), n = 0 :=
  ⟨show (7 : ℝ) ≥ 3 by norm_num,
    (Number_of_Signals_zero_of_empty_window (Example.flat_rate Real.log)
      Example.closed_detector ((1 : ℝ), (1 : ℝ)) () "" 0 "").1
      (show (7 : ℝ) ≥ 3 by norm_num)⟩

/-- Every row that `Collect_Rows` produces is a pair made of a mass of the list and a
bound. -/
theorem mem_Collect_Rows (K : Collaborators α P V) (det : Detector α) (DM : P)
    (distr : V) (masses : List α) (certainty : α) (row : List (WithTop α))
    (h : row ∈ Collect_Rows K det DM distr masses certainty) :
    ∃ m ∈ masses, ∃ bound : WithTop α, row = [(m : WithTop α), bound] := by
  induction masses generalizing DM with
  | nil => simp [Collect_Rows] at h
  | cons m rest ih =>
    simp only [Collect_Rows, List.mem_cons] at h
    rcases h with h | h
    · exact ⟨m, List.mem_cons_self _ _, _, h⟩
    · obtain ⟨m2, hm2, b, hb⟩ := ih _ h
      exact ⟨m2, List.mem_cons_of_mem _ hm2, b, hb⟩

/-- The rows of `Collect_Rows` carry the masses of the list at index 0 and, at index 1,
the bounds for the states that the scan goes through. -/
theorem Collect_Rows_columns (K : Collaborators α P V) (det : Detector α) (DM : P)
    (distr : V) (masses : List α) (certainty : α) :
    (Collect_Rows K det DM distr masses certainty).length = masses.length ∧
    (Collect_Rows K det DM distr masses certainty).map (fun row => row[0]?) =
      masses.map (fun m => some (m : WithTop α)) ∧
    (Collect_Rows K det DM distr masses certainty).map (fun row => row[1]?) =
      (Scan_States K DM masses).map
        (fun DM1 => some (Point_Bound K det DM1 distr certainty)) := by
  induction masses generalizing DM with
  | nil => exact ⟨rfl, rfl, rfl⟩
  | cons m rest ih =>
    obtain ⟨h1, h2, h3⟩ := ih (K.Set_Mass DM m)
    refine ⟨?_, ?_, ?_⟩
    · simp [Collect_Rows, h1]
    · simp [Collect_Rows, h2]
    · simp [Collect_Rows, Scan_States, h3]

/-- The rows of `Collect_Rows` over an ascending list are in ascending mass order. -/
theorem Collect_Rows_ascending (K : Collaborators α P V) (det : Detector α) (DM : P)
    (distr : V) (masses : List α) (certainty : α) (hsorted : masses.Sorted (· ≤ ·)) :
    (Collect_Rows K det DM distr masses certainty).Pairwise
      (fun r1 r2 => ∃ m1 m2 : α, r1[0]? = some (m1 : WithTop α) ∧
        r2[0]? = some (m2 : WithTop α) ∧ m1 ≤ m2) := by
  induction masses generalizing DM with
  | nil => simp [Collect_Rows]
  | cons m rest ih =>
    rw [List.sorted_cons] at hsorted
    simp only [Collect_Rows, List.pairwise_cons]
    refine ⟨?_, ih _ hsorted.2⟩
    intro r2 hr2
    obtain ⟨m2, hm2, b, hb⟩ := mem_Collect_Rows K det _ distr rest certainty r2 hr2
    exact ⟨m, m2, rfl, by rw [hb]; rfl, hsorted.1 m2 hm2⟩

/-- C4.  For every mass grid the scan returns one row per grid mass: the masses at
index 0 of the rows are the grid masses rearranged in ascending order (the grid itself
when it is ascending), the rows are in ascending mass order, every row has the mass at
index 0 and at index 1 the bound for the particle model with that mass set.  That bound
is the solver's result when the solver returns one (in Poisson mode with a nonzero
expected signal, the rescaled strength), and `+∞` when the solver fails or the expected
signal vanishes (kinematically forbidden); in each case the row is present and the scan
goes on.  `Limit_Curve` is this scan over the grid that `Log_Space` produces, whatever
that grid is: one row per point, in ascending mass order. -/
theorem Upper_Limit_Curve_one_row_per_mass (K : Collaborators α P V) (det : Detector α)
    (DM : P) (distr : V) (masses : List α) (certainty : α)
    (Log_Space : α → α → ℕ → List α) (mMin mMax : α) (points : ℕ) :
    (Upper_Limit_Curve K det DM distr masses certainty).length = masses.length ∧
    (∀ row ∈ Upper_Limit_Curve K det DM distr masses certainty, row.length = 2) ∧
    (masses.insertionSort (· ≤ ·)).Perm masses ∧
    (Upper_Limit_Curve K det DM distr masses certainty).map (fun row => row[0]?) =
      (masses.insertionSort (· ≤ ·)).map (fun m => some (m : WithTop α)) ∧
    (Upper_Limit_Curve K det DM distr masses certainty).map (fun row => row[1]?) =
      (Scan_States K DM (masses.insertionSort (· ≤ ·))).map
        (fun DM1 => some (Point_Bound K det DM1 distr certainty)) ∧
    (Upper_Limit_Curve K det DM distr masses certainty).Pairwise
      (fun r1 r2 => ∃ m1 m2 : α, r1[0]? = some (m1 : WithTop α) ∧
        r2[0]? = some (m2 : WithTop α) ∧ m1 ≤ m2) ∧
    (masses.Sorted (· ≤ ·) →
      (Upper_Limit_Curve K det DM distr masses certainty).map (fun row => row[0]?) =
        masses.map (fun m => some (m : WithTop α)) ∧
      (Upper_Limit_Curve K det DM distr masses certainty).map (fun row => row[1]?) =
        (Scan_States K DM masses).map
          (fun DM1 => some (Point_Bound K det DM1 distr certainty))) ∧
    (∀ (DM1 : P) (bound : WithTop α), Upper_Bound K det DM1 distr certainty = .ok bound →
      Point_Bound K det DM1 distr certainty = bound) ∧
    (∀ (DM1 : P) (e : Solver_Failure), Upper_Bound K det DM1 distr certainty = .error e →
      Point_Bound K det DM1 distr certainty = ⊤) ∧
    (∀ DM1 : P, Total_Number_of_Signals K det DM1 distr = 0 →
      Upper_Bound K det DM1 distr certainty = .ok ⊤ ∧
      Point_Bound K det DM1 distr certainty = ⊤) ∧
    (∀ DM1 : P, det.statistical_analysis = "Poisson" →
      Total_Number_of_Signals K det DM1 distr ≠ 0 →
      Point_Bound K det DM1 distr certainty =
        ((K.Get_Interaction_Parameter DM1 *
          (Required_Signal K det.background_events certainty /
            Total_Number_of_Signals K det DM1 distr) : α) : WithTop α)) ∧
    (Limit_Curve K Log_Space det DM distr mMin mMax points certainty =
        Upper_Limit_Curve K det DM distr (Log_Space mMin mMax points) certainty ∧
      (Limit_Curve K Log_Space det DM distr mMin mMax points certainty).length =
        (Log_Space mMin mMax points).length ∧
      (Limit_Curve K Log_Space det DM distr mMin mMax points certainty).Pairwise
        (fun r1 r2 => ∃ m1 m2 : α, r1[0]? = some (m1 : WithTop α) ∧
          r2[0]? = some (m2 : WithTop α) ∧ m1 ≤ m2)) := by
  have hcol := Collect_Rows_columns K det DM distr (masses.insertionSort (· ≤ ·)) certainty
  have hgrid := Collect_Rows_columns K det DM distr
    ((Log_Space mMin mMax points).insertionSort (· ≤ ·)) certainty
  refine ⟨?_, ?_, List.perm_insertionSort _ masses, hcol.2.1, hcol.2.2, ?_, ?_, ?_, ?_, ?_,
    ?_, rfl, ?_, ?_⟩
  rotate_right 2
  · rw [Limit_Curve, Upper_Limit_Curve, hgrid.1, List.length_insertionSort]
  · exact Collect_Rows_ascending K det DM distr _ certainty
      (List.sorted_insertionSort (· ≤ ·) (Log_Space mMin mMax points))
  · rw [Upper_Limit_Curve, hcol.1, List.length_insertionSort]
  · intro row hrow
    obtain ⟨m, _, b, hb⟩ := mem_Collect_Rows K det DM distr _ certainty row hrow
    rw [hb]
    rfl
  · exact Collect_Rows_ascending K det DM distr _ certainty
      (List.sorted_insertionSort (· ≤ ·) masses)
  · intro hsorted
    have hcol2 := Collect_Rows_columns K det DM distr masses certainty
    rw [Upper_Limit_Curve, hsorted.insertionSort_eq]
    exact ⟨hcol2.2.1, hcol2.2.2⟩
  · intro DM1 bound hb
    simp [Point_Bound, hb]
  · intro DM1 e he
    simp [Point_Bound, he]
  · intro DM1 h0
    have hub : Upper_Bound K det DM1 distr certainty = .ok ⊤ := by
      simp [Upper_Bound, h0]
    exact ⟨hub, by simp [Point_Bound, hub]⟩
  · intro DM1 hmode hne
    simp [Point_Bound, Upper_Bound, hmode, hne]

/-- Witness for C4: the flat-rate model over `ℝ` scanned over the grid `2, 1/4, 1`,
which is not ascending.  The rows come out for the masses `1/4, 1, 2`.  The mass `1/4`
is kinematically forbidden (its smallest allowed energy `20` lies above the window
`[0, 10]`), so its expected signal is `0` and its row carries `+∞`; the other two rows
carry the rescaled strength.  In the maximum-gap mode the search of this model fails and
the point is reported with `+∞` as well. -/
theorem Upper_Limit_Curve_one_row_per_mass_witness :
    List.Sorted (· ≤ ·) [(1 / 4 : ℝ), 1, 2] ∧
    Total_Number_of_Signals (Example.flat_rate Real.log) Example.window_detector
      ((1 / 4 : ℝ), (2 : ℝ)) () = 0 ∧
    Point_Bound (Example.flat_rate Real.log) Example.window_detector
      ((1 / 4 : ℝ), (2 : ℝ)) () (95 / 100) = ⊤ ∧
    Upper_Bound (Example.flat_rate Real.log) Example.gap_detector
      ((1 : ℝ), (2 : ℝ)) () (95 / 100) = .error .no_sign_change ∧
    Point_Bound (Example.flat_rate Real.log) Example.gap_detector
      ((1 : ℝ), (2 : ℝ)) () (95 / 100) = ⊤ ∧
    Total_Number_of_Signals (Example.flat_rate Real.log) Example.window_detector
      ((1 : ℝ), (2 : ℝ)) () ≠ 0 ∧
    Point_Bound (Example.flat_rate Real.log) Example.window_detector
      ((1 : ℝ), (2 : ℝ)) () (95 / 100) =
        ((2 * (-Real.log (1 - 95 / 100) / 20) : ℝ) : WithTop ℝ) ∧
    (Upper_Limit_Curve (Example.flat_rate Real.log) Example.window_detector
        ((1 : ℝ), (2 : ℝ)) () [2, 1 / 4, 1] (95 / 100)).Pairwise
      (fun r1 r2 => ∃ m1 m2 : ℝ, r1[0]? = some (m1 : WithTop ℝ) ∧
        r2[0]? = some (m2 : WithTop ℝ) ∧ m1 ≤ m2) ∧
    Upper_Limit_Curve (Example.flat_rate Real.log) Example.window_detector
        ((1 : ℝ), (2 : ℝ)) () [2, 1 / 4, 1] (95 / 100) =
      [[((1 / 4 : ℝ) : WithTop ℝ), ⊤],
       [((1 : ℝ) : WithTop ℝ), ((2 * (-Real.log (1 - 95 / 100) / 20) : ℝ) : WithTop ℝ)],
       [((2 : ℝ) : WithTop ℝ), ((2 * (-Real.log (1 - 95 / 100) / 20) : ℝ) : WithTop ℝ)]] ∧
    (Upper_Limit_Curve (Example.flat_rate Real.log) Example.window_detector
        ((1 : ℝ), (2 : ℝ)) () [1 / 4, 1, 2] (95 / 100)).map (fun row => row[0]?) =
      [some ((1 / 4 : ℝ) : WithTop ℝ), some ((1 : ℝ) : WithTop ℝ),
        some ((2 : ℝ) : WithTop ℝ)] := by
  have hsorted : List.Sorted (· ≤ ·) [(1 / 4 : ℝ), 1, 2] := by
    simp [List.Sorted]
    norm_num
  have hsort : List.insertionSort (· ≤ ·) [(2 : ℝ), 1 / 4, 1] = [1 / 4, 1, 2] := by
    simp [List.insertionSort, List.orderedInsert]
    norm_num
  have hzero : Total_Number_of_Signals (Example.flat_rate Real.log) Example.window_detector
      ((1 / 4 : ℝ), (2 : ℝ)) () = 0 := by
    simp only [Total_Number_of_Signals, Example.flat_rate, Example.window_detector, new]
    norm_num
  have hsig : ∀ m : ℝ, 1 ≤ m →
      Total_Number_of_Signals (Example.flat_rate Real.log) Example.window_detector
        (m, (2 : ℝ)) () = 20 := by
    intro m hm
    have h5 : ¬ (10 : ℝ) < 5 / m := by
      rw [not_lt, div_le_iff₀ (by linarith)]
      linarith
    simp only [Total_Number_of_Signals, Example.flat_rate, Example.window_detector, new]
    rw [if_neg (by
      rintro (h | h)
      · norm_num at h
      · exact h5 h)]
    norm_num
  have hfail : Upper_Bound (Example.flat_rate Real.log) Example.gap_detector
      ((1 : ℝ), (2 : ℝ)) () (95 / 100) = .error .no_sign_change := by
    have h20 : Total_Number_of_Signals (Example.flat_rate Real.log) Example.gap_detector
        ((1 : ℝ), (2 : ℝ)) () = 20 := hsig 1 le_rfl
    have hm1 : (Example.gap_detector : Detector ℝ).statistical_analysis ≠ "Poisson" := by
      simp [Example.gap_detector]
    have hm2 : (Example.gap_detector : Detector ℝ).statistical_analysis ≠ "Binned Poisson" := by
      simp [Example.gap_detector]
    simp only [Upper_Bound, h20, if_neg hm1, if_neg hm2]
    norm_num [Example.flat_rate]
  have h := Upper_Limit_Curve_one_row_per_mass (Example.flat_rate Real.log)
    Example.window_detector ((1 : ℝ), (2 : ℝ)) () [2, 1 / 4, 1] (95 / 100)
    (fun _ _ _ => []) 0 0 0
  have hs := Upper_Limit_Curve_one_row_per_mass (Example.flat_rate Real.log)
    Example.window_detector ((1 : ℝ), (2 : ℝ)) () [1 / 4, 1, 2] (95 / 100)
    (fun _ _ _ => []) 0 0 0
  have hg := Upper_Limit_Curve_one_row_per_mass (Example.flat_rate Real.log)
    Example.gap_detector ((1 : ℝ), (2 : ℝ)) () [2, 1 / 4, 1] (95 / 100)
    (fun _ _ _ => []) 0 0 0
  have hne : ∀ m : ℝ, 1 ≤ m →
      Total_Number_of_Signals (Example.flat_rate Real.log) Example.window_detector
        (m, (2 : ℝ)) () ≠ 0 := by
    intro m hm
    rw [hsig m hm]
    norm_num
  have hbound : ∀ m : ℝ, 1 ≤ m →
      Point_Bound (Example.flat_rate Real.log) Example.window_detector (m, (2 : ℝ)) ()
        (95 / 100) = ((2 * (-Real.log (1 - 95 / 100) / 20) : ℝ) : WithTop ℝ) := by
    intro m hm
    have hp := h.2.2.2.2.2.2.2.2.2.2.1 (m, (2 : ℝ)) rfl (hne m hm)
    rw [hp, hsig m hm]
    rfl
  have htop := (h.2.2.2.2.2.2.2.2.2.1 _ hzero).2
  refine ⟨hsorted, hzero, htop, hfail, hg.2.2.2.2.2.2.2.2.1 _ _ hfail, hne 1 le_rfl,
    hbound 1 le_rfl, h.2.2.2.2.2.1, ?_, ?_⟩
  · have h1 := hbound 1 le_rfl
    have h2 := hbound 2 (by norm_num)
    simp only [Upper_Limit_Curve, hsort, Collect_Rows, Example.flat_rate]
    simp only [Example.flat_rate] at h1 h2 htop
    rw [h1, h2, htop]
  · rw [(hs.2.2.2.2.2.2.1 hsorted).1]
    rfl

/-- The natural logarithm of `20` lies between `2.995` and `2.997`. -/
theorem log_twenty_bounds : (2.995 : ℝ) < Real.log 20 ∧ Real.log 20 < (2.997 : ℝ) := by
  have he3 : Real.exp 3 = Real.exp 1 ^ 3 := by
    rw [← Real.exp_nat_mul]
    norm_num
  have hlo : (2.7182818283 : ℝ) < Real.exp 1 := Real.exp_one_gt_d9
  have hhi : Real.exp 1 < (2.7182818286 : ℝ) := Real.exp_one_lt_d9
  have h3lo : (20.08 : ℝ) < Real.exp 3 := by
    rw [he3]
    calc (20.08 : ℝ) < (2.7182818283 : ℝ) ^ 3 := by norm_num
      _ < Real.exp 1 ^ 3 := pow_lt_pow_left₀ hlo (by norm_num) (by norm_num)
  have h3hi : Real.exp 3 < (20.09 : ℝ) := by
    rw [he3]
    calc Real.exp 1 ^ 3 < (2.7182818286 : ℝ) ^ 3 :=
          pow_lt_pow_left₀ hhi (Real.exp_pos 1).le (by norm_num)
      _ < (20.09 : ℝ) := by norm_num
  constructor
  · rw [Real.lt_log_iff_exp_lt (by norm_num)]
    have hsplit : Real.exp 2.995 * Real.exp 0.005 = Real.exp 3 := by
      rw [← Real.exp_add]
      norm_num
    have hsmall : (1.005 : ℝ) ≤ Real.exp 0.005 := by
      have := Real.add_one_le_exp (0.005 : ℝ)
      linarith
    have hpos : 0 < Real.exp 2.995 := Real.exp_pos _
    nlinarith
  · rw [Real.log_lt_iff_lt_exp (by norm_num)]
    have hsplit : Real.exp 2.997 = Real.exp 3 * Real.exp (-0.003) := by
      rw [← Real.exp_add]
      norm_num
    have hsmall : (0.997 : ℝ) ≤ Real.exp (-0.003) := by
      have := Real.add_one_le_exp (-0.003 : ℝ)
      linarith
    rw [hsplit]
    nlinarith [Real.exp_pos (3 : ℝ)]

/-- C1.  Poisson mode without background, confidence level in `(0, 1)`, expected
signal positive at the current strength and linear in the strength (slope `k`): the
solver returns `strength_current * S_max / S0` with `S_max = -ln(1 - CL)`, the expected
signal at the returned strength is `-ln(1 - CL)`, a positive number, whatever the
particle handle (so whatever its strength and mass) is; at the default confidence level
`0.95` this number lies between `2.995` and `2.997`. -/
theorem Upper_Bound_Poisson_background_free {P V : Type} (K : Collaborators ℝ P V)
    (det : Detector ℝ) (DM : P) (distr : V) (certainty k : ℝ)
    (hlog : K.log = Real.log)
    (hmode : det.statistical_analysis = "Poisson") (hB : det.background_events = 0)
    (hCL0 : 0 < certainty) (hCL1 : certainty < 1)
    (hpos : 0 < Total_Number_of_Signals K det DM distr)
    (hcur : Total_Number_of_Signals K det DM distr = k * K.Get_Interaction_Parameter DM)
    (hlin : ∀ s : ℝ,
      Total_Number_of_Signals K det (K.Set_Interaction_Parameter DM s) distr = k * s) :
    Upper_Bound K det DM distr certainty =
      .ok (((K.Get_Interaction_Parameter DM * (-Real.log (1 - certainty)) /
        Total_Number_of_Signals K det DM distr : ℝ)) : WithTop ℝ) ∧
    Total_Number_of_Signals K det
      (K.Set_Interaction_Parameter DM
        (K.Get_Interaction_Parameter DM * (-Real.log (1 - certainty)) /
          Total_Number_of_Signals K det DM distr)) distr = -Real.log (1 - certainty) ∧
    0 < -Real.log (1 - certainty) ∧
    (2.995 : ℝ) < -Real.log (1 - default_certainty) ∧
    -Real.log (1 - default_certainty) < (2.997 : ℝ) := by
  have hne : Total_Number_of_Signals K det DM distr ≠ 0 := ne_of_gt hpos
  have h20 : -Real.log (1 - default_certainty) = Real.log 20 := by
    rw [← Real.log_inv]
    norm_num [default_certainty]
  refine ⟨?_, ?_, ?_, ?_, ?_⟩
  · simp only [Upper_Bound, if_neg hne, if_pos hmode, Required_Signal, hB, if_true, hlog]
    rw [mul_div_assoc]
  · rw [hlin]
    rw [hcur] at hne ⊢
    have hk : k ≠ 0 := left_ne_zero_of_mul hne
    have hs : K.Get_Interaction_Parameter DM ≠ 0 := right_ne_zero_of_mul hne
    field_simp
    ring
  · have h1 : 0 < 1 - certainty := by linarith
    have h2 : 1 - certainty < 1 := by linarith
    have := Real.log_neg h1 h2
    linarith
  · rw [h20]
    exact log_twenty_bounds.1
  · rw [h20]
    exact log_twenty_bounds.2

/-- Poisson mode without background, positive current strength and positive expected
signal: a larger confidence level below `1` gives a strictly larger bound. -/
theorem Upper_Bound_Poisson_lt_of_lt {P V : Type} (K : Collaborators ℝ P V)
    (det : Detector ℝ) (DM : P) (distr : V) (c1 c2 : ℝ)
    (hlog : K.log = Real.log)
    (hmode : det.statistical_analysis = "Poisson") (hB : det.background_events = 0)
    (hpos : 0 < Total_Number_of_Signals K det DM distr)
    (hs : 0 < K.Get_Interaction_Parameter DM) (h12 : c1 < c2) (h2 : c2 < 1) :
    ∃ b1 b2 : ℝ, Upper_Bound K det DM distr c1 = .ok (b1 : WithTop ℝ) ∧
      Upper_Bound K det DM distr c2 = .ok (b2 : WithTop ℝ) ∧ b1 < b2 := by
  have hne : Total_Number_of_Signals K det DM distr ≠ 0 := ne_of_gt hpos
  refine ⟨K.Get_Interaction_Parameter DM *
      (-Real.log (1 - c1) / Total_Number_of_Signals K det DM distr),
    K.Get_Interaction_Parameter DM *
      (-Real.log (1 - c2) / Total_Number_of_Signals K det DM distr), ?_, ?_, ?_⟩
  · simp only [Upper_Bound, if_neg hne, if_pos hmode, Required_Signal, hB, if_true, hlog]
  · simp only [Upper_Bound, if_neg hne, if_pos hmode, Required_Signal, hB, if_true, hlog]
  · have hl : Real.log (1 - c2) < Real.log (1 - c1) :=
      Real.log_lt_log (by linarith) (by linarith)
    apply mul_lt_mul_of_pos_left _ hs
    apply div_lt_div_of_pos_right _ hpos
    linarith

/-- Witness for C1: the flat-rate model over the window `[0, 10]` with exposure `1`
expects `10 * strength` signals; starting from strength `2` at mass `1` the bound at
confidence level `0.95` is `2 * (-ln 0.05) / 20`, about `0.2996`, and the expected signal
there is `-ln 0.05`. -/
theorem Upper_Bound_Poisson_background_free_witness :
    (0 : ℝ) < Total_Number_of_Signals (Example.flat_rate Real.log) Example.window_detector
      ((1 : ℝ), (2 : ℝ)) () ∧
    Upper_Bound (Example.flat_rate Real.log) Example.window_detector ((1 : ℝ), (2 : ℝ)) ()
        (95 / 100) =
      .ok (((2 * (-Real.log (1 - 95 / 100)) / 20 : ℝ)) : WithTop ℝ) ∧
    Total_Number_of_Signals (Example.flat_rate Real.log) Example.window_detector
      ((1 : ℝ), (2 * (-Real.log (1 - 95 / 100)) / 20 : ℝ)) () = -Real.log (1 - 95 / 100) := by
  have hsig : ∀ s : ℝ,
      Total_Number_of_Signals (Example.flat_rate Real.log) Example.window_detector
        ((1 : ℝ), s) () = 10 * s := by
    intro s
    simp only [Total_Number_of_Signals, Example.flat_rate, Example.window_detector, new]
    norm_num
    ring
  have h20 : Total_Number_of_Signals (Example.flat_rate Real.log) Example.window_detector
      ((1 : ℝ), (2 : ℝ)) () = 20 := by
    rw [hsig]
    norm_num
  have h := Upper_Bound_Poisson_background_free (Example.flat_rate Real.log)
    Example.window_detector ((1 : ℝ), (2 : ℝ)) () (95 / 100) 10 rfl rfl rfl
    (by norm_num) (by norm_num) (by rw [h20]; norm_num) (hsig 2) hsig
  rw [h20] at h
  exact ⟨by rw [h20]; norm_num, h.1, h.2.1⟩

end Detector

/-! ## Theorems about the maximum-gap distribution -/

section MaximumGap

end MaximumGap

end obscura
